import Mathlib

/-!
Verification of the Remote Action Execution & Download-Stub Engine
(`build/rbe/remote_action.py` and collaborators) against its
natural-language specification.

The implementation module `remote_action.py` is not present in this
checkout (only its unit-test file `build/rbe/remote_action_test.py` is),
so the definitions below are shallow models written from the
specification, with behaviour pinned down by the assertions of the unit
tests where the specification leaves choices open (for example the exact
shape of the transient-retry classification and of platform-value
merging).  Machine-level details that the claims do not touch
(permission bits, mtimes, concurrency of batch downloads) are not
modelled.
-/

/-- Modelled from the spec: the structured result of one subprocess
invocation — exit code plus captured stdout/stderr lines
(`cl_utils.SubprocessResult`). -/
structure SubprocessResult where
  returncode : Nat
  stdout : List String := []
  stderr : List String := []
deriving DecidableEq, Repr

/-- Boolean infix test on lists, by structural recursion: `isInfixList xs ys`
is true iff `xs` occurs contiguously inside `ys`. -/
def isInfixList (xs : List Char) : List Char → Bool
  | [] => xs.isEmpty
  | y :: ys => xs.isPrefixOf (y :: ys) || isInfixList xs ys

/-- `strContains sub s` is true iff `sub` occurs as a substring of `s`. -/
def strContains (sub s : String) : Bool :=
  isInfixList sub.data s.data

/-- Modelled from the spec: the stderr log signature that marks a
retriable connection failure of the backend launcher (`"Fail to dial"`,
see the diagnostic-signature list in the external-interface section and
the unit tests `test_fail_to_dial_retry` / `test_file_not_found_no_retry`). -/
def failToDialSignature : String := "Fail to dial"

/-- Modelled from the spec: classification of one backend-launcher
result as transient/retriable.  The exit code belongs to the fixed
configured set of transient infrastructure codes
(`_RETRIABLE_REWRAPPER_STATUSES`, treated as configuration per the
spec's open question), or a stderr line carries the "Fail to dial"
connection-failure signature (failures are classified by exit code plus
log content). -/
def resultIsRetriable (retriableStatuses : List Nat) (r : SubprocessResult) : Bool :=
  retriableStatuses.contains r.returncode ||
    r.stderr.any (fun line => strContains failToDialSignature line)

/-- Modelled from the spec: one build step (`RemoteAction`), restricted
to the attributes the verified claims depend on.  `retriableStatuses`
is the configured set of transient backend exit codes. -/
structure RemoteAction where
  canonicalizeWorkingDir : Bool := false
  buildSubdir : String := "."
  command : List String := []
  retriableStatuses : List Nat := []
  compareWithLocal : Bool := false
  outputFiles : List String := []
  inputs : List String := []
  miscomparisonExportDir : Option String := none
  preserveUnchangedOutputMtime : Bool := false
deriving DecidableEq, Repr

/-- Modelled from the spec: the output-leak preflight predicate — with
`canonicalize_working_dir` set and a build subdirectory other than `.`,
the command line is scanned for literal occurrences of the real
build-subdirectory string; a hit rejects the action before any launch. -/
def outputLeakRejects (a : RemoteAction) : Bool :=
  a.canonicalizeWorkingDir && (a.buildSubdir != ".") &&
    a.command.any (fun tok => strContains a.buildSubdir tok)

/-- Modelled from the spec: the remote-invocation retry loop.  The
argument lists the successive results the backend launcher would return
(the mock's side-effect list in the unit tests); the value is the final
launcher exit code paired with the number of launcher invocations
consumed.  A non-zero retriable first result is retried exactly once
with identical arguments; the second result is final, never more than
two attempts. -/
def runRemoteWithRetry (retriableStatuses : List Nat) :
    List SubprocessResult → Nat × Nat
  | [] => (1, 0)
  | r1 :: rest =>
    if r1.returncode != 0 && resultIsRetriable retriableStatuses r1 then
      match rest with
      | [] => (r1.returncode, 1)
      | r2 :: _ => (r2.returncode, 2)
    else (r1.returncode, 1)

/-- The environment a single `run()` call interacts with: the sequence
of backend-launcher results, the local command's exit code (used by
compare mode), and the bytes of each declared output as produced by the
local and by the remote run. -/
structure RunEnv where
  launcherResults : List SubprocessResult := []
  localExit : Nat := 0
  localOutputContent : String → String := fun _ => ""
  remoteOutputContent : String → String := fun _ => ""

/-- The observable outcome of one `run()` call: final exit code, number
of backend-launcher invocations, and the destination paths of the files
copied under the miscomparison export directory. -/
structure RunOutcome where
  exitCode : Nat
  launcherInvocations : Nat
  exports : List String
deriving DecidableEq, Repr

/-- `joinPath d p` is the path of `p` relative to the exec root when `p`
is relative to build subdirectory `d`. -/
def joinPath (d p : String) : String := d ++ "/" ++ p

/-- The declared output files whose local and remote contents differ
byte-for-byte. -/
def mismatchedOutputs (a : RemoteAction) (env : RunEnv) : List String :=
  a.outputFiles.filter
    (fun p => env.localOutputContent p != env.remoteOutputContent p)

/-- The compare-mode epilogue once both the remote and the local run
have succeeded: a byte-for-byte diff of every declared output; any
difference forces exit code 1, and when a miscomparison export
directory is configured each differing output, its `.remote`
counterpart, and all declared inputs are copied under it preserving
their exec-root-relative paths. -/
def compareOutcome (a : RemoteAction) (env : RunEnv) (n : Nat) :
    RunOutcome :=
  if (mismatchedOutputs a env).isEmpty then ⟨0, n, []⟩
  else
    match a.miscomparisonExportDir with
    | none => ⟨1, n, []⟩
    | some d =>
      ⟨1, n,
        (mismatchedOutputs a env).flatMap (fun p =>
          [d ++ "/" ++ joinPath a.buildSubdir p,
           d ++ "/" ++ joinPath a.buildSubdir p ++ ".remote"]) ++
          a.inputs.map (fun i => d ++ "/" ++ i)⟩

/-- What `run()` does after the (retried) remote launch, given the
final launcher exit code paired with the invocation count. -/
def runPostLaunch (a : RemoteAction) (env : RunEnv) : Nat × Nat → RunOutcome
  | (code, n) =>
    if a.compareWithLocal then
      if code != 0 then ⟨code, n, []⟩
      else if env.localExit != 0 then ⟨env.localExit, n, []⟩
      else compareOutcome a env n
    else ⟨code, n, []⟩

/-- Modelled from the spec: `RemoteAction.run()` along the remote
execution path.  Order of business: output-leak preflight (exit 1 with
zero launches on a hit); remote launch with single transient retry;
then, in compare mode after a successful remote run, the local run and
the output comparison (`compareOutcome`). -/
def RemoteAction.run (a : RemoteAction) (env : RunEnv) : RunOutcome :=
  if outputLeakRejects a then ⟨1, 0, []⟩
  else runPostLaunch a env
    (runRemoteWithRetry a.retriableStatuses env.launcherResults)

/-! ## Download stub codec -/

/-- The content kind recorded in a download stub: a file blob or a
directory tree. -/
inductive StubType where
  | file
  | dir
deriving DecidableEq, Repr

/-- Text encoding of a stub's content kind. -/
def StubType.encode : StubType → List Char
  | StubType.file => "file".data
  | StubType.dir => "dir".data

/-- Decoding of a stub's content kind; anything other than the two
known encodings is a format error. -/
def StubType.decode (cs : List Char) : Option StubType :=
  if cs = "file".data then some StubType.file
  else if cs = "dir".data then some StubType.dir
  else none

/-- Modelled from the spec: `DownloadStubInfo` — a placeholder record
for deferred content with fields path, type, blob digest, owning action
digest and build id. -/
structure DownloadStubInfo where
  path : String
  type : StubType
  blob_digest : String
  action_digest : String
  build_id : String
deriving DecidableEq, Repr

/-- Modelled from the spec: the fixed recognizable header that begins
every download-stub file on disk, distinguishing it from real content
by a byte-prefix check. -/
def stubHeaderChars : List Char :=
  "#### remote-action download stub ####".data

/-- Field label preceding the `path` value in a stub file. -/
def pathLabel : List Char := "path: ".data

/-- Field label preceding the `type` value in a stub file. -/
def typeLabel : List Char := "type: ".data

/-- Field label preceding the `blob_digest` value in a stub file. -/
def blobDigestLabel : List Char := "blob_digest: ".data

/-- Field label preceding the `action_digest` value in a stub file. -/
def actionDigestLabel : List Char := "action_digest: ".data

/-- Field label preceding the `build_id` value in a stub file. -/
def buildIdLabel : List Char := "build_id: ".data

/-- Join a list of lines into file bytes, separating by a newline. -/
def joinLines : List (List Char) → List Char
  | [] => []
  | [l] => l
  | l :: ls => l ++ '\n' :: joinLines ls

/-- Split file bytes into lines at each newline. -/
def splitOnNewline : List Char → List (List Char)
  | [] => [[]]
  | x :: xs =>
    if x = '\n' then [] :: splitOnNewline xs
    else
      match splitOnNewline xs with
      | [] => [[x]]
      | l :: ls => (x :: l) :: ls

/-- Modelled from the spec: serialization of a `DownloadStubInfo` to
stub-file bytes — the fixed header line followed by the five labelled
text fields in a stable layout (`DownloadStubInfo._write`). -/
def DownloadStubInfo.toFileChars (s : DownloadStubInfo) : List Char :=
  joinLines
    [stubHeaderChars,
     pathLabel ++ s.path.data,
     typeLabel ++ s.type.encode,
     blobDigestLabel ++ s.blob_digest.data,
     actionDigestLabel ++ s.action_digest.data,
     buildIdLabel ++ s.build_id.data]

/-- Strip an expected leading run of elements, returning the remainder,
or `none` when the expected run is not a prefix. -/
def stripLeading : List Char → List Char → Option (List Char)
  | [], rest => some rest
  | _ :: _, [] => none
  | p :: ps, x :: xs => if p = x then stripLeading ps xs else none

/-- Errors of the stub codec: the file is absent, or its bytes do not
carry the stub header/field layout (`DownloadStubFormatError`, a
distinct error from "not found"). -/
inductive StubReadError where
  | notFound
  | formatError
deriving DecidableEq, Repr

/-- Parse the five labelled field lines of a stub file body. -/
def parseStubFields : List (List Char) → Option DownloadStubInfo
  | [l1, l2, l3, l4, l5] => do
    let p ← stripLeading pathLabel l1
    let tEnc ← stripLeading typeLabel l2
    let ty ← StubType.decode tEnc
    let bd ← stripLeading blobDigestLabel l3
    let ad ← stripLeading actionDigestLabel l4
    let bid ← stripLeading buildIdLabel l5
    pure ⟨⟨p⟩, ty, ⟨bd⟩, ⟨ad⟩, ⟨bid⟩⟩
  | _ => none

/-- Modelled from the spec: deserialization of stub-file bytes back to
a `DownloadStubInfo`; bytes lacking the fixed header or the field
layout signal a format error (`DownloadStubInfo.read_from_file` on the
bytes it read). -/
def DownloadStubInfo.ofFileChars (contents : List Char) :
    Except StubReadError DownloadStubInfo :=
  match splitOnNewline contents with
  | [] => Except.error StubReadError.formatError
  | h :: rest =>
    if h = stubHeaderChars then
      match parseStubFields rest with
      | some s => Except.ok s
      | none => Except.error StubReadError.formatError
    else Except.error StubReadError.formatError

/-- A filesystem restricted to regular-file contents: each path either
holds bytes or is absent. -/
def FileSystem : Type := String → Option (List Char)

/-- Write bytes at a path, replacing whatever was there. -/
def fsWrite (fs : FileSystem) (p : String) (c : List Char) : FileSystem :=
  fun q => if q = p then some c else fs q

/-- Atomic rename: after `fsRename fs src dst`, the destination holds
what the source held and the source is gone. -/
def fsRename (fs : FileSystem) (src dst : String) : FileSystem :=
  fun q => if q = dst then fs src else if q = src then none else fs q

/-- Modelled from the spec: `DownloadStubInfo.read_from_file` — read
the bytes at `path` and decode them; a missing file is a not-found
error, bytes without the stub layout a format error. -/
def DownloadStubInfo.read_from_file (fs : FileSystem) (path : String) :
    Except StubReadError DownloadStubInfo :=
  match fs path with
  | none => Except.error StubReadError.notFound
  | some c => DownloadStubInfo.ofFileChars c

/-- Modelled from the spec: `DownloadStubInfo.create` — atomically
write the stub's header and fields at its own path (permission-bit
handling is outside this model). -/
def DownloadStubInfo.create (s : DownloadStubInfo) (fs : FileSystem) :
    FileSystem :=
  fsWrite fs s.path s.toFileChars

/-- Modelled from the spec: `is_download_stub_file` — true iff the
file's leading bytes exactly match the fixed stub header; a missing
file is simply not a stub, never an error. -/
def is_download_stub_file (fs : FileSystem) (p : String) : Bool :=
  match fs p with
  | none => false
  | some c => stubHeaderChars.isPrefixOf c

/-- Modelled from the spec: `download_temp_location` — the temporary
path next to a destination into which the backend fetch tool writes
before the atomic rename. -/
def download_temp_location (p : String) : String :=
  p ++ ".download-tmp"

/-- Modelled from the spec: `download_stub_backup_location` — the path
at which a prior stub is kept as a backup when its destination is
materialized. -/
def download_stub_backup_location (p : String) : String :=
  p ++ ".dl-stub.bkup"

/-- Modelled from the spec: `DownloadStubInfo.download` — the backend
fetch tool writes the stub's content into the temporary location (its
result `fetchResult` and whatever bytes `fetched` it managed to write
are inputs of the model); on a non-zero fetch result the destination is
never renamed over and the failing result is propagated, while on
success a stub currently at the destination is first renamed to its
backup location and the temporary file is then atomically renamed over
the destination. -/
def DownloadStubInfo.download (_s : DownloadStubInfo)
    (fetchResult : SubprocessResult) (fetched : List Char)
    (fs : FileSystem) (dest : String) : SubprocessResult × FileSystem :=
  let tmp := download_temp_location dest
  let fs1 := fsWrite fs tmp fetched
  if fetchResult.returncode != 0 then
    (fetchResult, fs1)
  else
    let fs2 :=
      if is_download_stub_file fs1 dest then
        fsRename fs1 dest (download_stub_backup_location dest)
      else fs1
    (fetchResult, fsRename fs2 tmp dest)

/-! ## Output reconciliation (`_update_stub`) -/

/-- What currently sits at one declared output path: nothing, a real
downloaded file (tracked by its content digest), or a download stub. -/
inductive PathContent where
  | absent
  | realFile (digest : String)
  | stub (info : DownloadStubInfo)
deriving DecidableEq, Repr

/-- The state of one declared output path together with its optional
backup-stub location. -/
structure OutputPathState where
  main : PathContent
  backupStub : Option DownloadStubInfo
deriving DecidableEq, Repr

/-- Modelled from the spec: `RemoteAction._update_stub` in
deferred-download mode, acting on the state of one output path given
the freshly built candidate stub.  An existing stub with the same digest
is left untouched; else, with `preserve_unchanged_output_mtime` set, a
real file whose content digest equals the new digest is left untouched
together with its optional backup stub (no stub written, nothing
removed); else any existing file or stub at the path (and any backup
stub) is removed and the new stub is created there. -/
def RemoteAction.update_stub (a : RemoteAction) (new : DownloadStubInfo)
    (st : OutputPathState) : OutputPathState :=
  match st.main with
  | PathContent.stub old =>
    if old.blob_digest = new.blob_digest then st
    else ⟨PathContent.stub new, none⟩
  | PathContent.realFile d =>
    if a.preserveUnchangedOutputMtime && (d == new.blob_digest) then st
    else ⟨PathContent.stub new, none⟩
  | PathContent.absent => ⟨PathContent.stub new, none⟩

/-! ## Reproxy log reader -/

/-- Modelled from the spec: `ReproxyLogEntry` — one backend execution
record, with the output-path→digest maps as association lists. -/
structure ReproxyLogEntry where
  execution_id : String
  action_digest : String
  output_file_digests : List (String × String)
  output_directory_digests : List (String × String)
  completion_status : String
deriving DecidableEq, Repr

/-- Modelled from the spec: `ReproxyLogEntry.make_download_stub_info`
for a single file path — a stub only when the path has a recorded
digest in the file-digest map. -/
def ReproxyLogEntry.make_file_stub_info (e : ReproxyLogEntry)
    (p : String) (build_id : String) : Option DownloadStubInfo :=
  match e.output_file_digests.lookup p with
  | some d => some ⟨p, StubType.file, d, e.action_digest, build_id⟩
  | none => none

/-- Modelled from the spec: the directory analogue of
`ReproxyLogEntry.make_file_stub_info`, keyed on the directory-digest
map. -/
def ReproxyLogEntry.make_dir_stub_info (e : ReproxyLogEntry)
    (p : String) (build_id : String) : Option DownloadStubInfo :=
  match e.output_directory_digests.lookup p with
  | some d => some ⟨p, StubType.dir, d, e.action_digest, build_id⟩
  | none => none

/-- Modelled from the spec: `ReproxyLogEntry.make_download_stubs` — for
each requested file or directory path, look up its digest in the parsed
maps and build a `DownloadStubInfo` only for paths with a recorded
digest; paths without one are silently skipped and absent from the
result mapping. -/
def ReproxyLogEntry.make_download_stubs (e : ReproxyLogEntry)
    (files dirs : List String) (build_id : String) :
    List (String × DownloadStubInfo) :=
  files.filterMap (fun p =>
    (e.make_file_stub_info p build_id).map (fun s => (p, s))) ++
  dirs.filterMap (fun p =>
    (e.make_dir_stub_info p build_id).map (fun s => (p, s)))

/-! ## Platform value merging -/

/-- Merge of two key-value association lists with the update (second
argument) winning per key, mirroring Python dict update: keys of the
base keep their position but take the updated value, and keys only in
the update are appended. -/
def updateKeyValues (base upd : List (String × String)) :
    List (String × String) :=
  base.map (fun kv =>
    match upd.lookup kv.1 with
    | some v => (kv.1, v)
    | none => kv) ++
  upd.filter (fun kv => (base.lookup kv.1).isNone)

/-- Modelled from the spec: merging of rewrapper platform values from
the `--platform` flag, the environment and the config file
(`RemoteAction.merged_platform`).  The unit tests
(`test_platform_merge_env_no_flag`,
`test_platform_merge_override_with_env`) pin the base choice down: when
the environment carries a platform value the config file is not
consulted at all, otherwise the config file's platform value is the
base; explicit flag values then override the base per key. -/
def mergedPlatform (flag env : Option (List (String × String)))
    (cfg : List (String × String)) : List (String × String) :=
  let base :=
    match env with
    | some e => e
    | none => cfg
  match flag with
  | some f => updateKeyValues base f
  | none => base

/-! ## Helper lemmas -/

/-- A Boolean prefix never exceeds the length of the list it prefixes. -/
theorem isPrefixOf_length_le :
    ∀ (p l : List Char), p.isPrefixOf l = true → p.length ≤ l.length := by
  intro p
  induction p with
  | nil => intro l _; exact Nat.zero_le _
  | cons a as ih =>
    intro l h
    cases l with
    | nil => simp [List.isPrefixOf] at h
    | cons x xs =>
      simp only [List.isPrefixOf, Bool.and_eq_true] at h
      simpa using Nat.succ_le_succ (ih xs h.2)

/-- Splitting after one newline-terminated newline-free line peels that
line off. -/
theorem splitOnNewline_append (l rest : List Char) (h : '\n' ∉ l) :
    splitOnNewline (l ++ '\n' :: rest) = l :: splitOnNewline rest := by
  induction l with
  | nil => simp [splitOnNewline]
  | cons x xs ih =>
    have hx : x ≠ '\n' := by
      intro hx; exact h (hx ▸ List.mem_cons_self x xs)
    have hxs : '\n' ∉ xs := fun hm => h (List.mem_cons_of_mem x hm)
    simp only [List.cons_append, splitOnNewline, if_neg hx, List.append_eq,
      ih hxs]

/-- Splitting a newline-free run of bytes yields that single line. -/
theorem splitOnNewline_single (l : List Char) (h : '\n' ∉ l) :
    splitOnNewline l = [l] := by
  induction l with
  | nil => rfl
  | cons x xs ih =>
    have hx : x ≠ '\n' := by
      intro hx; exact h (hx ▸ List.mem_cons_self x xs)
    have hxs : '\n' ∉ xs := fun hm => h (List.mem_cons_of_mem x hm)
    simp only [splitOnNewline, if_neg hx, ih hxs]

/-- Stripping an expected leading run from itself-plus-rest yields the
rest. -/
theorem stripLeading_append :
    ∀ (p r : List Char), stripLeading p (p ++ r) = some r := by
  intro p
  induction p with
  | nil => intro r; rfl
  | cons a as ih => intro r; simp [stripLeading, ih]

/-- Lookup distributes over append, preferring the left list. -/
theorem lookup_append (A B : List (String × String)) (k : String) :
    (A ++ B).lookup k = ((A.lookup k).orElse fun _ => B.lookup k) := by
  induction A with
  | nil => rfl
  | cons kv A ih =>
    obtain ⟨k1, v1⟩ := kv
    by_cases hk : k = k1
    · subst hk; simp [List.lookup]
    · have hb : (k == k1) = false := by simpa using hk
      simp [List.lookup, hb, ih]

/-- Lookup in the substituted base of `updateKeyValues`: present keys
keep their presence, taking the update's value when it has one. -/
theorem lookup_map_subst (u : List (String × String)) (k : String) :
    ∀ b : List (String × String),
      (b.map (fun kv =>
        match u.lookup kv.1 with
        | some v => (kv.1, v)
        | none => kv)).lookup k =
      (match b.lookup k with
       | none => none
       | some w =>
         match u.lookup k with
         | some v => some v
         | none => some w) := by
  intro b
  induction b with
  | nil => rfl
  | cons kv bs ih =>
    obtain ⟨k1, v1⟩ := kv
    by_cases hk : k = k1
    · subst hk
      cases hu : u.lookup k <;> simp [List.lookup, hu]
    · have hb : (k == k1) = false := by simpa using hk
      cases hu : u.lookup k1 <;> simp [List.lookup, hb, hu, ih]

/-- Lookup in the appended part of `updateKeyValues`: only keys absent
from the base survive the filter. -/
theorem lookup_filter_base_none (b : List (String × String)) (k : String) :
    ∀ u : List (String × String),
      (u.filter (fun kv => (b.lookup kv.1).isNone)).lookup k =
      (match b.lookup k with
       | some _ => none
       | none => u.lookup k) := by
  intro u
  induction u with
  | nil => cases hb : b.lookup k <;> rfl
  | cons kv us ih =>
    obtain ⟨k1, v1⟩ := kv
    by_cases hk : k = k1
    · subst hk
      cases hb : b.lookup k <;> simp [List.filter, List.lookup, hb, ih]
    · have hbk : (k == k1) = false := by simpa using hk
      cases hb1 : b.lookup k1 <;>
        cases hb : b.lookup k <;>
          simp [List.filter, List.lookup, hb1, hb, hbk, ih]

/-- Per-key characterization of `updateKeyValues`: the update wins,
the base fills the remaining keys. -/
theorem lookup_updateKeyValues (b u : List (String × String)) (k : String) :
    (updateKeyValues b u).lookup k =
      ((u.lookup k).orElse fun _ => b.lookup k) := by
  unfold updateKeyValues
  rw [lookup_append, lookup_map_subst, lookup_filter_base_none]
  cases hb : b.lookup k <;> cases hu : u.lookup k <;> simp

/-- A key that is not a member is not Boolean-contained. -/
theorem contains_eq_false_of_not_mem (l : List Nat) (n : Nat)
    (h : n ∉ l) : l.contains n = false := by
  simpa using h

/-- A member key is Boolean-contained. -/
theorem contains_eq_true_of_mem (l : List Nat) (n : Nat)
    (h : n ∈ l) : l.contains n = true := by
  simpa using h

/-- Appending a nonempty suffix changes a string. -/
theorem ne_append_of_data_nonempty (p s : String) (h : s.data ≠ []) :
    p ≠ p ++ s := by
  intro he
  have hd : p.data = p.data ++ s.data := by
    have := congrArg String.data he
    simpa [String.data_append] using this
  have hlen := congrArg List.length hd
  rw [List.length_append] at hlen
  exact h (List.eq_nil_of_length_eq_zero (by omega))

/-- The outcome of `compareOutcome` always reports the invocation count
it was given. -/
theorem compareOutcome_invocations (a : RemoteAction) (env : RunEnv)
    (n : Nat) : (compareOutcome a env n).launcherInvocations = n := by
  unfold compareOutcome
  split
  · rfl
  · split <;> rfl

/-- The outcome of `runPostLaunch` always reports the invocation count
it was given. -/
theorem runPostLaunch_invocations (a : RemoteAction) (env : RunEnv)
    (code n : Nat) :
    (runPostLaunch a env (code, n)).launcherInvocations = n := by
  show (if a.compareWithLocal then
      if code != 0 then (⟨code, n, []⟩ : RunOutcome)
      else if env.localExit != 0 then ⟨env.localExit, n, []⟩
      else compareOutcome a env n
    else ⟨code, n, []⟩).launcherInvocations = n
  split
  · split
    · rfl
    · split
      · rfl
      · exact compareOutcome_invocations a env n
  · rfl

/-- The launcher-invocation count of `run()` is zero exactly on the
preflight-reject path and otherwise comes from the retry loop. -/
theorem run_invocations (a : RemoteAction) (env : RunEnv) :
    (a.run env).launcherInvocations =
      if outputLeakRejects a then 0
      else (runRemoteWithRetry a.retriableStatuses env.launcherResults).2 := by
  unfold RemoteAction.run
  split
  · rfl
  · exact runPostLaunch_invocations a env _ _

/-- The retry loop performs at least one invocation when a launcher
result is available. -/
theorem retry_invocations_pos (s : List Nat) (r : SubprocessResult)
    (rest : List SubprocessResult) :
    1 ≤ (runRemoteWithRetry s (r :: rest)).2 := by
  show 1 ≤ (if (r.returncode != 0) && resultIsRetriable s r then
      match rest with
      | [] => (r.returncode, 1)
      | r2 :: _ => (r2.returncode, 2)
    else (r.returncode, 1)).2
  split
  · cases rest <;> simp
  · simp

/-- A non-zero retriable first result consumes exactly two launcher
invocations and the second result is final. -/
theorem runRemoteWithRetry_retriable (s : List Nat)
    (r1 r2 : SubprocessResult) (rest : List SubprocessResult)
    (h0 : r1.returncode ≠ 0) (hr : resultIsRetriable s r1 = true) :
    runRemoteWithRetry s (r1 :: r2 :: rest) = (r2.returncode, 2) := by
  show (if (r1.returncode != 0) && resultIsRetriable s r1 then
      match r2 :: rest with
      | [] => (r1.returncode, 1)
      | r2 :: _ => (r2.returncode, 2)
    else (r1.returncode, 1)) = (r2.returncode, 2)
  simp [hr, bne_iff_ne, h0]

/-- A first result that is not classified retriable is final after one
invocation. -/
theorem runRemoteWithRetry_not_retriable (s : List Nat)
    (r1 : SubprocessResult) (rest : List SubprocessResult)
    (hr : resultIsRetriable s r1 = false) :
    runRemoteWithRetry s (r1 :: rest) = (r1.returncode, 1) := by
  show (if (r1.returncode != 0) && resultIsRetriable s r1 then
      match rest with
      | [] => (r1.returncode, 1)
      | r2 :: _ => (r2.returncode, 2)
    else (r1.returncode, 1)) = (r1.returncode, 1)
  simp [hr]

/-- With the preflight passing, `run()` is the post-launch handling of
the retried remote invocation. -/
theorem run_eq_postLaunch (a : RemoteAction) (env : RunEnv)
    (h : outputLeakRejects a = false) :
    a.run env = runPostLaunch a env
      (runRemoteWithRetry a.retriableStatuses env.launcherResults) := by
  unfold RemoteAction.run
  simp [h]

/-- Outside compare mode the post-launch handling passes the launcher
result through unchanged. -/
theorem runPostLaunch_no_compare (a : RemoteAction) (env : RunEnv)
    (code n : Nat) (h : a.compareWithLocal = false) :
    runPostLaunch a env (code, n) = ⟨code, n, []⟩ := by
  show (if a.compareWithLocal then
      if code != 0 then (⟨code, n, []⟩ : RunOutcome)
      else if env.localExit != 0 then ⟨env.localExit, n, []⟩
      else compareOutcome a env n
    else ⟨code, n, []⟩) = ⟨code, n, []⟩
  simp [h]

/-- A result with neither a transient exit code nor a "Fail to dial"
stderr line is not classified retriable. -/
theorem resultIsRetriable_eq_false (s : List Nat) (r : SubprocessResult)
    (hc : r.returncode ∉ s)
    (hd : ∀ line ∈ r.stderr, strContains failToDialSignature line = false) :
    resultIsRetriable s r = false := by
  unfold resultIsRetriable
  rw [contains_eq_false_of_not_mem _ _ hc]
  simp only [Bool.false_or, List.any_eq_false]
  intro line hline
  simp [hd line hline]

/-! ## Claim C1 — retry policy of `RemoteAction.run()` -/

/-- Claim C1 (amended): when the backend launcher's first invocation
returns an exit code in the fixed transient/retriable set and the
second invocation returns 0, `run()` returns 0 and the launcher is
invoked exactly twice; when both invocations return a transient code,
`run()` returns that final code and the invocation count is exactly
two, never more; when the first invocation returns a non-transient
non-zero code and none of its stderr lines carries the retriable
"Fail to dial" log signature, the invocation count is exactly one and
`run()` returns that code. -/
theorem C1_retry_policy (a : RemoteAction) (env : RunEnv)
    (r1 r2 : SubprocessResult) (rest : List SubprocessResult)
    (hcmp : a.compareWithLocal = false)
    (hleak : outputLeakRejects a = false)
    (henv : env.launcherResults = r1 :: r2 :: rest) :
    (r1.returncode ∈ a.retriableStatuses → r1.returncode ≠ 0 →
      r2.returncode = 0 → a.run env = ⟨0, 2, []⟩) ∧
    (r1.returncode ∈ a.retriableStatuses → r1.returncode ≠ 0 →
      r2.returncode ∈ a.retriableStatuses →
      a.run env = ⟨r2.returncode, 2, []⟩) ∧
    (r1.returncode ∉ a.retriableStatuses → r1.returncode ≠ 0 →
      (∀ line ∈ r1.stderr, strContains failToDialSignature line = false) →
      a.run env = ⟨r1.returncode, 1, []⟩) := by
  refine ⟨fun hmem h0 h20 => ?_, fun hmem h0 _ => ?_, fun hmem h0 hd => ?_⟩
  · have hr : resultIsRetriable a.retriableStatuses r1 = true := by
      unfold resultIsRetriable
      rw [contains_eq_true_of_mem _ _ hmem]
      rfl
    rw [run_eq_postLaunch a env hleak, henv,
      runRemoteWithRetry_retriable _ _ _ _ h0 hr, h20,
      runPostLaunch_no_compare a env _ _ hcmp]
  · have hr : resultIsRetriable a.retriableStatuses r1 = true := by
      unfold resultIsRetriable
      rw [contains_eq_true_of_mem _ _ hmem]
      rfl
    rw [run_eq_postLaunch a env hleak, henv,
      runRemoteWithRetry_retriable _ _ _ _ h0 hr,
      runPostLaunch_no_compare a env _ _ hcmp]
  · have hr := resultIsRetriable_eq_false a.retriableStatuses r1 hmem hd
    rw [run_eq_postLaunch a env hleak, henv,
      runRemoteWithRetry_not_retriable _ _ _ hr,
      runPostLaunch_no_compare a env _ _ hcmp]

/-- Claim C1, counterexample to the original wording: with the
transient set `[35, 45, 137]`, a first invocation returning the
non-transient non-zero code 5 — but with a "Fail to dial" stderr line —
is retried, so the invocation count is two, not the one the claim
demands for every non-transient non-zero first result. -/
theorem C1_counterexample :
    RemoteAction.run
      { retriableStatuses := [35, 45, 137], command := ["echo", "hello"] }
      { launcherResults :=
          [⟨5, [],
            ["F0424 15:20:57.829003 1410923 main.go:112] Fail to dial unix:///b/s/w/ir/x/w/recipe_cleanup/rbedt_5k30r/reproxy.sock: context deadline exceeded",
             "other uninteresting log message"]⟩,
           ⟨5, [], []⟩] } =
      ⟨5, 2, []⟩ ∧
    (5 : Nat) ∉ [35, 45, 137] ∧ (5 : Nat) ≠ 0 := by
  refine ⟨by decide, by decide, by decide⟩

/-- Claim C1, witness: the amended retry policy evaluated on the unit
tests' concrete scenarios — transient 35 then success, transient 45
twice, and a final non-transient 2. -/
theorem C1_witness :
    RemoteAction.run
      { retriableStatuses := [35, 45, 137], command := ["echo", "hello"] }
      { launcherResults := [⟨35, [], []⟩, ⟨0, [], []⟩] } = ⟨0, 2, []⟩ ∧
    RemoteAction.run
      { retriableStatuses := [35, 45, 137], command := ["echo", "hello"] }
      { launcherResults := [⟨45, [], []⟩, ⟨45, [], []⟩] } = ⟨45, 2, []⟩ ∧
    RemoteAction.run
      { retriableStatuses := [35, 45, 137], command := ["echo", "hello"] }
      { launcherResults := [⟨2, [], []⟩, ⟨2, [], []⟩] } = ⟨2, 1, []⟩ :=
  ⟨(C1_retry_policy _ _ _ _ _ rfl (by decide) rfl).1
      (by decide) (by decide) rfl,
   (C1_retry_policy _ _ _ _ _ rfl (by decide) rfl).2.1
      (by decide) (by decide) (by decide),
   (C1_retry_policy _ _ _ _ _ rfl (by decide) rfl).2.2
      (by decide) (by decide) (by intro line h; cases h)⟩

/-! ## Claim C10 — stderr log signature decides the retry -/

/-- Claim C10: a remote invocation whose result has exit code 5 (not in
the transient code set) together with a stderr line containing
"Fail to dial" is retried exactly once — two launcher invocations and
`run()` returns 5 — while exit code 2 with a "file not found" stderr
line (no dial signature) is not retried; and retry classification is
not a function of the exit code alone: the same exit code 5 with and
without the dial signature classifies differently. -/
theorem C10_fail_to_dial_retry (a : RemoteAction) (env : RunEnv)
    (r1 r2 : SubprocessResult) (rest : List SubprocessResult)
    (hcmp : a.compareWithLocal = false)
    (hleak : outputLeakRejects a = false)
    (h5 : (5 : Nat) ∉ a.retriableStatuses)
    (h2 : (2 : Nat) ∉ a.retriableStatuses) :
    (env.launcherResults = r1 :: r2 :: rest → r1.returncode = 5 →
      (∃ line ∈ r1.stderr, strContains failToDialSignature line = true) →
      r2.returncode = 5 → a.run env = ⟨5, 2, []⟩) ∧
    (env.launcherResults = r1 :: rest → r1.returncode = 2 →
      (∀ line ∈ r1.stderr, strContains failToDialSignature line = false) →
      a.run env = ⟨2, 1, []⟩) ∧
    (∀ line : String, strContains failToDialSignature line = true →
      resultIsRetriable a.retriableStatuses ⟨5, [], [line]⟩ = true ∧
      resultIsRetriable a.retriableStatuses ⟨5, [], []⟩ = false) := by
  refine ⟨fun henv h15 hdial h25 => ?_, fun henv h12 hnod => ?_,
    fun line hline => ⟨?_, ?_⟩⟩
  · have hr : resultIsRetriable a.retriableStatuses r1 = true := by
      unfold resultIsRetriable
      rcases hdial with ⟨line, hmem, hline⟩
      have : r1.stderr.any
          (fun line => strContains failToDialSignature line) = true :=
        List.any_eq_true.mpr ⟨line, hmem, hline⟩
      rw [this, Bool.or_true]
    have h0 : r1.returncode ≠ 0 := by rw [h15]; decide
    rw [run_eq_postLaunch a env hleak, henv,
      runRemoteWithRetry_retriable _ _ _ _ h0 hr, h25,
      runPostLaunch_no_compare a env _ _ hcmp]
  · have hmem : r1.returncode ∉ a.retriableStatuses := by rw [h12]; exact h2
    have hr := resultIsRetriable_eq_false a.retriableStatuses r1 hmem hnod
    rw [run_eq_postLaunch a env hleak, henv,
      runRemoteWithRetry_not_retriable _ _ _ hr, h12,
      runPostLaunch_no_compare a env _ _ hcmp]
  · unfold resultIsRetriable
    simp [hline]
  · unfold resultIsRetriable
    rw [contains_eq_false_of_not_mem _ _ h5]
    rfl

/-- Claim C10, witness: the dial-signature retry and the
file-not-found non-retry on the unit tests' concrete inputs, plus the
two classifications of exit code 5. -/
theorem C10_witness :
    RemoteAction.run
      { retriableStatuses := [35, 45, 137], command := ["echo", "hello"] }
      { launcherResults :=
          [⟨5, [], ["F0424 main.go:112] Fail to dial unix:///tmp/reproxy.sock: context deadline exceeded",
             "other uninteresting log message"]⟩,
           ⟨5, [], []⟩] } = ⟨5, 2, []⟩ ∧
    RemoteAction.run
      { retriableStatuses := [35, 45, 137], command := ["echo", "hello"] }
      { launcherResults :=
          [⟨2, [], ["ERROR: file not found: /bin/smash", "going home now"]⟩] } =
      ⟨2, 1, []⟩ ∧
    resultIsRetriable [35, 45, 137]
      ⟨5, [], ["F0424 Fail to dial unix:///tmp/reproxy.sock"]⟩ = true ∧
    resultIsRetriable [35, 45, 137] ⟨5, [], []⟩ = false := by
  refine ⟨?_, ?_, ?_, ?_⟩
  · exact (C10_fail_to_dial_retry
      { retriableStatuses := [35, 45, 137], command := ["echo", "hello"] }
      { launcherResults :=
          [⟨5, [], ["F0424 main.go:112] Fail to dial unix:///tmp/reproxy.sock: context deadline exceeded",
             "other uninteresting log message"]⟩,
           ⟨5, [], []⟩] }
      ⟨5, [], ["F0424 main.go:112] Fail to dial unix:///tmp/reproxy.sock: context deadline exceeded",
         "other uninteresting log message"]⟩
      ⟨5, [], []⟩ [] rfl (by decide) (by decide) (by decide)).1
      rfl rfl ⟨_, List.mem_cons_self _ _, by decide⟩ rfl
  · exact (C10_fail_to_dial_retry
      { retriableStatuses := [35, 45, 137], command := ["echo", "hello"] }
      { launcherResults :=
          [⟨2, [], ["ERROR: file not found: /bin/smash", "going home now"]⟩] }
      ⟨2, [], ["ERROR: file not found: /bin/smash", "going home now"]⟩
      ⟨0, [], []⟩ [] rfl (by decide) (by decide) (by decide)).2.1
      rfl rfl (by decide)
  · exact ((C10_fail_to_dial_retry
      { retriableStatuses := [35, 45, 137], command := ["echo", "hello"] }
      {} ⟨0, [], []⟩ ⟨0, [], []⟩ [] rfl (by decide) (by decide)
      (by decide)).2.2
      "F0424 Fail to dial unix:///tmp/reproxy.sock" (by decide)).1
  · exact ((C10_fail_to_dial_retry
      { retriableStatuses := [35, 45, 137], command := ["echo", "hello"] }
      {} ⟨0, [], []⟩ ⟨0, [], []⟩ [] rfl (by decide) (by decide)
      (by decide)).2.2
      "F0424 Fail to dial unix:///tmp/reproxy.sock" (by decide)).2

/-! ## Claim C3 — output-leak preflight -/

/-- Claim C3: with `canonicalize_working_dir` enabled and a build
subdirectory other than `.`, a command whose literal argument list
contains the real build-subdirectory string makes `run()` return exit
code 1 with zero backend-launcher invocations; the same command with
build subdirectory `.` is not rejected and the launcher is invoked. -/
theorem C3_output_leak_preflight (a : RemoteAction) (env : RunEnv)
    (hc : a.canonicalizeWorkingDir = true)
    (hd : a.buildSubdir ≠ ".")
    (hleak : ∃ tok ∈ a.command, strContains a.buildSubdir tok = true) :
    a.run env = ⟨1, 0, []⟩ ∧
    outputLeakRejects { a with buildSubdir := "." } = false ∧
    (∀ r rest, env.launcherResults = r :: rest →
      1 ≤ ({ a with buildSubdir := "." : RemoteAction }.run
        env).launcherInvocations) := by
  have hrej : outputLeakRejects a = true := by
    unfold outputLeakRejects
    rw [hc, List.any_eq_true.mpr hleak]
    simp [bne_iff_ne, hd]
  have hdot : outputLeakRejects { a with buildSubdir := "." } = false := by
    unfold outputLeakRejects
    simp
  refine ⟨?_, hdot, ?_⟩
  · unfold RemoteAction.run
    rw [hrej]
    rfl
  · intro r rest henv
    rw [run_invocations, hdot, henv]
    exact retry_invocations_pos _ r rest

/-- Claim C3, witness: the unit tests' leaking command `echo build-out`
under build subdirectory `build-out` is rejected with zero launches,
and under `.` the launcher runs. -/
theorem C3_witness :
    RemoteAction.run
      { canonicalizeWorkingDir := true, buildSubdir := "build-out",
        command := ["echo", "build-out"] }
      { launcherResults := [⟨0, [], []⟩] } = ⟨1, 0, []⟩ ∧
    1 ≤ (RemoteAction.run
      { canonicalizeWorkingDir := true, buildSubdir := ".",
        command := ["echo", "build-out"] }
      { launcherResults := [⟨0, [], []⟩] }).launcherInvocations := by
  have h := C3_output_leak_preflight
    { canonicalizeWorkingDir := true, buildSubdir := "build-out",
      command := ["echo", "build-out"] }
    { launcherResults := [⟨0, [], []⟩] }
    rfl (by decide) ⟨"build-out", by decide, by decide⟩
  exact ⟨h.1, h.2.2 ⟨0, [], []⟩ [] rfl⟩

/-- A first launcher result with exit code 0 ends the retry loop at one
invocation with exit code 0. -/
theorem runRemoteWithRetry_first_zero (s : List Nat)
    (r : SubprocessResult) (rest : List SubprocessResult)
    (h : r.returncode = 0) :
    runRemoteWithRetry s (r :: rest) = (0, 1) := by
  show (if (r.returncode != 0) && resultIsRetriable s r then
      match rest with
      | [] => (r.returncode, 1)
      | r2 :: _ => (r2.returncode, 2)
    else (r.returncode, 1)) = (0, 1)
  simp [h]

/-- In compare mode, a successful remote exit followed by a successful
local exit hands over to the output comparison. -/
theorem runPostLaunch_compare_zero (a : RemoteAction) (env : RunEnv)
    (n : Nat) (hcmp : a.compareWithLocal = true) (hl : env.localExit = 0) :
    runPostLaunch a env (0, n) = compareOutcome a env n := by
  show (if a.compareWithLocal then
      if (0 : Nat) != 0 then (⟨0, n, []⟩ : RunOutcome)
      else if env.localExit != 0 then ⟨env.localExit, n, []⟩
      else compareOutcome a env n
    else ⟨0, n, []⟩) = compareOutcome a env n
  simp [hcmp, hl]

/-- With at least one mismatched output the comparison reports exit
code 1. -/
theorem compareOutcome_exitCode_of_mismatch (a : RemoteAction)
    (env : RunEnv) (n : Nat)
    (h : (mismatchedOutputs a env).isEmpty = false) :
    (compareOutcome a env n).exitCode = 1 := by
  unfold compareOutcome
  rw [h]
  cases hE : a.miscomparisonExportDir <;> simp [hE]

/-- A differing declared output is listed among the mismatched
outputs. -/
theorem mem_mismatchedOutputs (a : RemoteAction) (env : RunEnv)
    (p : String) (hp : p ∈ a.outputFiles)
    (hne : env.localOutputContent p ≠ env.remoteOutputContent p) :
    p ∈ mismatchedOutputs a env := by
  unfold mismatchedOutputs
  exact List.mem_filter.mpr ⟨hp, by simp [bne_iff_ne, hne]⟩

/-! ## Claim C2 — compare mode -/

/-- Claim C2: with `compare_with_local` set and both the remote and the
local run exiting 0, matching outputs give final exit code 0; any
differing declared output gives final exit code 1; and with a
miscomparison export directory configured, the differing output, its
`.remote` counterpart, and all declared inputs are copied under the
export directory preserving their exec-root-relative paths. -/
theorem C2_compare_mode (a : RemoteAction) (env : RunEnv)
    (r : SubprocessResult)
    (hcmp : a.compareWithLocal = true)
    (hleak : outputLeakRejects a = false)
    (henv : env.launcherResults = [r])
    (hr : r.returncode = 0)
    (hl : env.localExit = 0) :
    ((∀ p ∈ a.outputFiles,
        env.localOutputContent p = env.remoteOutputContent p) →
      a.run env = ⟨0, 1, []⟩) ∧
    (∀ p ∈ a.outputFiles,
      env.localOutputContent p ≠ env.remoteOutputContent p →
      (a.run env).exitCode = 1) ∧
    (∀ d, a.miscomparisonExportDir = some d →
      ∀ p ∈ a.outputFiles,
        env.localOutputContent p ≠ env.remoteOutputContent p →
        (d ++ "/" ++ joinPath a.buildSubdir p) ∈ (a.run env).exports ∧
        (d ++ "/" ++ joinPath a.buildSubdir p ++ ".remote") ∈
          (a.run env).exports ∧
        ∀ i ∈ a.inputs, (d ++ "/" ++ i) ∈ (a.run env).exports) := by
  have hrun : a.run env = compareOutcome a env 1 := by
    rw [run_eq_postLaunch a env hleak, henv,
      runRemoteWithRetry_first_zero _ _ _ hr,
      runPostLaunch_compare_zero a env 1 hcmp hl]
  refine ⟨fun hall => ?_, fun p hp hne => ?_, fun d hd p hp hne => ?_⟩
  · have hnil : mismatchedOutputs a env = [] := by
      unfold mismatchedOutputs
      exact List.filter_eq_nil_iff.mpr (fun p hp => by simp [hall p hp])
    rw [hrun]
    unfold compareOutcome
    rw [hnil]
    rfl
  · have hmem := mem_mismatchedOutputs a env p hp hne
    rw [hrun]
    exact compareOutcome_exitCode_of_mismatch a env 1
      (by simp [List.isEmpty_iff, List.ne_nil_of_mem hmem])
  · have hmem := mem_mismatchedOutputs a env p hp hne
    have hne' : (mismatchedOutputs a env).isEmpty = false := by
      simp [List.isEmpty_iff, List.ne_nil_of_mem hmem]
    rw [hrun]
    unfold compareOutcome
    rw [hne', hd]
    simp only [Bool.false_eq_true, if_false]
    refine ⟨?_, ?_, fun i hi => ?_⟩
    · exact List.mem_append_left _
        (List.mem_flatMap.mpr ⟨p, hmem, by simp⟩)
    · exact List.mem_append_left _
        (List.mem_flatMap.mpr ⟨p, hmem, by simp⟩)
    · exact List.mem_append_right _ (List.mem_map_of_mem _ hi)

/-- Claim C2, witness: the unit tests' scenario — one output
`hello.txt`, input `greet.in`, export dir `naughty/diffs`, build
subdirectory `build-out`, both runs exiting 0 — evaluated once with
matching and once with differing output contents. -/
theorem C2_witness :
    RemoteAction.run
      { compareWithLocal := true, buildSubdir := "build-out",
        outputFiles := ["hello.txt"], inputs := ["greet.in"],
        miscomparisonExportDir := some "naughty/diffs" }
      { launcherResults := [⟨0, [], []⟩],
        localOutputContent := fun _ => "same",
        remoteOutputContent := fun _ => "same" } = ⟨0, 1, []⟩ ∧
    (RemoteAction.run
      { compareWithLocal := true, buildSubdir := "build-out",
        outputFiles := ["hello.txt"], inputs := ["greet.in"],
        miscomparisonExportDir := some "naughty/diffs" }
      { launcherResults := [⟨0, [], []⟩],
        localOutputContent := fun _ => "local",
        remoteOutputContent := fun _ => "remote" }).exitCode = 1 ∧
    "naughty/diffs/build-out/hello.txt" ∈ (RemoteAction.run
      { compareWithLocal := true, buildSubdir := "build-out",
        outputFiles := ["hello.txt"], inputs := ["greet.in"],
        miscomparisonExportDir := some "naughty/diffs" }
      { launcherResults := [⟨0, [], []⟩],
        localOutputContent := fun _ => "local",
        remoteOutputContent := fun _ => "remote" }).exports ∧
    "naughty/diffs/build-out/hello.txt.remote" ∈ (RemoteAction.run
      { compareWithLocal := true, buildSubdir := "build-out",
        outputFiles := ["hello.txt"], inputs := ["greet.in"],
        miscomparisonExportDir := some "naughty/diffs" }
      { launcherResults := [⟨0, [], []⟩],
        localOutputContent := fun _ => "local",
        remoteOutputContent := fun _ => "remote" }).exports ∧
    "naughty/diffs/greet.in" ∈ (RemoteAction.run
      { compareWithLocal := true, buildSubdir := "build-out",
        outputFiles := ["hello.txt"], inputs := ["greet.in"],
        miscomparisonExportDir := some "naughty/diffs" }
      { launcherResults := [⟨0, [], []⟩],
        localOutputContent := fun _ => "local",
        remoteOutputContent := fun _ => "remote" }).exports := by
  refine ⟨?_, ?_, ?_, ?_, ?_⟩
  · exact (C2_compare_mode _ _ ⟨0, [], []⟩ rfl (by decide) rfl rfl rfl).1
      (by intro p hp; rfl)
  · exact (C2_compare_mode _ _ ⟨0, [], []⟩ rfl (by decide) rfl rfl rfl).2.1
      "hello.txt" (List.mem_cons_self _ _) (by decide)
  · exact ((C2_compare_mode _ _ ⟨0, [], []⟩ rfl (by decide) rfl rfl
      rfl).2.2 "naughty/diffs" rfl "hello.txt" (List.mem_cons_self _ _)
      (by decide)).1
  · exact ((C2_compare_mode _ _ ⟨0, [], []⟩ rfl (by decide) rfl rfl
      rfl).2.2 "naughty/diffs" rfl "hello.txt" (List.mem_cons_self _ _)
      (by decide)).2.1
  · exact ((C2_compare_mode _ _ ⟨0, [], []⟩ rfl (by decide) rfl rfl
      rfl).2.2 "naughty/diffs" rfl "hello.txt" (List.mem_cons_self _ _)
      (by decide)).2.2 "greet.in" (List.mem_cons_self _ _)

/-! ## Claim C4 — platform value merging -/

/-- Claim C4, counterexample to the original wording: with no
`--platform` flag, environment platform `foo=notfoo,alice=joe` and
config-file platform `foo=bar,baz=quux`, the key `baz` — absent from
both the flag and the environment — is *not* filled from the config
file: the merged platform has no `baz` entry even though the config
file maps it to `quux` (the unit tests assert the config file is not
even read when the environment value is present). -/
theorem C4_counterexample :
    (mergedPlatform none (some [("foo", "notfoo"), ("alice", "joe")])
        [("foo", "bar"), ("baz", "quux")]).lookup "baz" = none ∧
    ([("foo", "bar"), ("baz", "quux")] :
        List (String × String)).lookup "baz" = some "quux" ∧
    ([("foo", "notfoo"), ("alice", "joe")] :
        List (String × String)).lookup "baz" = none ∧
    mergedPlatform none (some [("foo", "notfoo"), ("alice", "joe")])
        [("foo", "bar"), ("baz", "quux")] =
      [("foo", "notfoo"), ("alice", "joe")] := by
  refine ⟨by decide, by decide, by decide, by decide⟩

/-- Claim C4 (amended): explicit `--platform` flag values override
same-key values of the chosen base per key; the base is the
environment's platform value whenever the environment variable is set —
the config file is then not consulted at all — and only when the
environment is unset are keys absent from the flag filled from the
config file's platform default. -/
theorem C4_platform_merge (f e cfg : List (String × String))
    (k : String) :
    (mergedPlatform (some f) (some e) cfg).lookup k =
      ((f.lookup k).orElse fun _ => e.lookup k) ∧
    (mergedPlatform (some f) none cfg).lookup k =
      ((f.lookup k).orElse fun _ => cfg.lookup k) ∧
    (mergedPlatform none (some e) cfg).lookup k = e.lookup k ∧
    (∀ cfg2, mergedPlatform (some f) (some e) cfg =
      mergedPlatform (some f) (some e) cfg2) := by
  refine ⟨?_, ?_, rfl, fun _ => rfl⟩
  · exact lookup_updateKeyValues e f k
  · exact lookup_updateKeyValues cfg f k

/-! ## Claim C5 — `preserve_unchanged_output_mtime` -/

/-- Claim C5: in deferred-download mode with
`preserve_unchanged_output_mtime` set, an existing real output file
whose content digest equals the new digest from the reproxy log is left
untouched together with any backup stub — nothing is deleted and no new
stub is written; when the digests differ, the old file and any backup
stub are removed and the new download stub is created at the path. -/
theorem C5_preserve_unchanged_output_mtime (a : RemoteAction)
    (new : DownloadStubInfo) (st : OutputPathState) (d : String)
    (hp : a.preserveUnchangedOutputMtime = true)
    (hm : st.main = PathContent.realFile d) :
    (d = new.blob_digest → a.update_stub new st = st) ∧
    (d ≠ new.blob_digest →
      a.update_stub new st = ⟨PathContent.stub new, none⟩) := by
  constructor
  · intro he
    unfold RemoteAction.update_stub
    rw [hm]
    simp [hp, he]
  · intro hne
    unfold RemoteAction.update_stub
    rw [hm]
    simp [hp, hne]

/-- Claim C5, witness: the unit tests' scenario — an output whose
digest matches the new stub's is preserved along with its backup stub,
and a mismatching digest is replaced by the new stub with the backup
removed. -/
theorem C5_witness :
    RemoteAction.update_stub
      { preserveUnchangedOutputMtime := true }
      ⟨"out.out", StubType.file, "aa55aa55/33", "765321/44", "new-build-id"⟩
      ⟨PathContent.realFile "aa55aa55/33",
       some ⟨"out.out", StubType.file, "aa55aa55/33", "765321/44",
         "new-build-id"⟩⟩ =
      ⟨PathContent.realFile "aa55aa55/33",
       some ⟨"out.out", StubType.file, "aa55aa55/33", "765321/44",
         "new-build-id"⟩⟩ ∧
    RemoteAction.update_stub
      { preserveUnchangedOutputMtime := true }
      ⟨"out.out", StubType.file, "43218765/11", "765321/44", "new-build-id"⟩
      ⟨PathContent.realFile "aa55aa55/33",
       some ⟨"out.out", StubType.file, "aa55aa55/33", "765321/44",
         "new-build-id"⟩⟩ =
      ⟨PathContent.stub
        ⟨"out.out", StubType.file, "43218765/11", "765321/44",
          "new-build-id"⟩, none⟩ :=
  ⟨(C5_preserve_unchanged_output_mtime _ _ _ "aa55aa55/33" rfl rfl).1 rfl,
   (C5_preserve_unchanged_output_mtime _ _ _ "aa55aa55/33" rfl rfl).2
     (by decide)⟩

/-! ## Claim C6 — `make_download_stubs` -/

/-- Claim C6: for a parsed reproxy log entry whose file-digest map is
exactly `{p ↦ d}`, requesting stubs for `files = [p]` yields exactly
one entry at `p` carrying blob digest `d` (and the entry's action
digest and the requested build id); requesting a path with no entry in
either digest map yields no entry in the result mapping — the function
is total, not an error. -/
theorem C6_make_download_stubs (e : ReproxyLogEntry)
    (p d q b : String)
    (hf : e.output_file_digests = [(p, d)])
    (hq1 : e.output_file_digests.lookup q = none)
    (hq2 : e.output_directory_digests.lookup q = none) :
    e.make_download_stubs [p] [] b =
      [(p, ⟨p, StubType.file, d, e.action_digest, b⟩)] ∧
    e.make_download_stubs [q] [q] b = [] := by
  constructor
  · unfold ReproxyLogEntry.make_download_stubs
      ReproxyLogEntry.make_file_stub_info
    rw [hf]
    simp [List.lookup]
  · unfold ReproxyLogEntry.make_download_stubs
      ReproxyLogEntry.make_file_stub_info ReproxyLogEntry.make_dir_stub_info
    simp [List.filterMap_cons, hq1, hq2]

/-- Claim C6, witness: the unit tests' concrete log entry — file
`dir/big-file.txt` with digest `abc123abc123/343` yields exactly its
stub, and the absent optional output `crash_logs/optional-log.txt` of
the same entry yields an empty mapping. -/
theorem C6_witness :
    ReproxyLogEntry.make_download_stubs
      ⟨"", "feedfacefeedface/1337",
        [("dir/big-file.txt", "abc123abc123/343")], [], "SUCCESS"⟩
      ["dir/big-file.txt"] [] "xyzzy" =
      [("dir/big-file.txt",
        ⟨"dir/big-file.txt", StubType.file, "abc123abc123/343",
          "feedfacefeedface/1337", "xyzzy"⟩)] ∧
    ReproxyLogEntry.make_download_stubs
      ⟨"", "feedfacefeedface/1337",
        [("dir/big-file.txt", "abc123abc123/343")], [], "SUCCESS"⟩
      ["crash_logs/optional-log.txt"] ["crash_logs/optional-log.txt"]
      "xyzzy" = [] :=
  ⟨(C6_make_download_stubs
      ⟨"", "feedfacefeedface/1337",
        [("dir/big-file.txt", "abc123abc123/343")], [], "SUCCESS"⟩
      "dir/big-file.txt" "abc123abc123/343"
      "crash_logs/optional-log.txt" "xyzzy" rfl (by decide) rfl).1,
   (C6_make_download_stubs
      ⟨"", "feedfacefeedface/1337",
        [("dir/big-file.txt", "abc123abc123/343")], [], "SUCCESS"⟩
      "dir/big-file.txt" "abc123abc123/343"
      "crash_logs/optional-log.txt" "xyzzy" rfl (by decide) rfl).2⟩

/-- Decoding inverts encoding of the stub content kind. -/
theorem StubType.decode_encode (t : StubType) :
    StubType.decode t.encode = some t := by
  cases t <;> rfl

/-- A character absent from both halves is absent from their
concatenation. -/
theorem not_mem_append_chars {c : Char} {A B : List Char}
    (ha : c ∉ A) (hb : c ∉ B) : c ∉ A ++ B := by
  intro h
  rcases List.mem_append.mp h with h | h
  · exact ha h
  · exact hb h

/-- Unfolding step of `joinLines` on a list of two or more lines. -/
theorem joinLines_cons₂ (l l2 : List Char) (ls : List (List Char)) :
    joinLines (l :: l2 :: ls) = l ++ '\n' :: joinLines (l2 :: ls) := rfl

/-- Parsing the five serialized field lines of a stub recovers the
record exactly. -/
theorem parseStubFields_toLines (s : DownloadStubInfo) :
    parseStubFields
      [pathLabel ++ s.path.data, typeLabel ++ s.type.encode,
       blobDigestLabel ++ s.blob_digest.data,
       actionDigestLabel ++ s.action_digest.data,
       buildIdLabel ++ s.build_id.data] = some s := by
  unfold parseStubFields
  simp only [stripLeading_append, StubType.decode_encode, Option.bind_eq_bind,
    Option.some_bind]
  rfl

/-- The serialized stub file splits into its header line followed by
the five field lines, provided no field value contains a newline. -/
theorem splitOnNewline_toFileChars (s : DownloadStubInfo)
    (h1 : '\n' ∉ s.path.data) (h2 : '\n' ∉ s.blob_digest.data)
    (h3 : '\n' ∉ s.action_digest.data) (h4 : '\n' ∉ s.build_id.data) :
    splitOnNewline s.toFileChars =
      [stubHeaderChars, pathLabel ++ s.path.data,
       typeLabel ++ s.type.encode,
       blobDigestLabel ++ s.blob_digest.data,
       actionDigestLabel ++ s.action_digest.data,
       buildIdLabel ++ s.build_id.data] := by
  have ht : '\n' ∉ s.type.encode := by cases s.type <;> decide
  unfold DownloadStubInfo.toFileChars
  rw [joinLines_cons₂, joinLines_cons₂, joinLines_cons₂, joinLines_cons₂,
    joinLines_cons₂]
  rw [splitOnNewline_append _ _ (by decide),
    splitOnNewline_append _ _
      (not_mem_append_chars (by decide) h1),
    splitOnNewline_append _ _
      (not_mem_append_chars (by decide) ht),
    splitOnNewline_append _ _
      (not_mem_append_chars (by decide) h2),
    splitOnNewline_append _ _
      (not_mem_append_chars (by decide) h3)]
  rw [show joinLines [buildIdLabel ++ s.build_id.data] =
      buildIdLabel ++ s.build_id.data from rfl,
    splitOnNewline_single _ (not_mem_append_chars (by decide) h4)]

/-! ## Claim C7 — stub codec round trip -/

/-- Claim C7: for every `DownloadStubInfo` record (whose text fields,
being paths/digests/ids, contain no newline), writing it to a file and
reading it back yields an identical record — both through the raw
serialization and through `create()` at the stub's own path. -/
theorem C7_stub_roundtrip (s : DownloadStubInfo) (fs : FileSystem)
    (h1 : '\n' ∉ s.path.data) (h2 : '\n' ∉ s.blob_digest.data)
    (h3 : '\n' ∉ s.action_digest.data) (h4 : '\n' ∉ s.build_id.data) :
    DownloadStubInfo.ofFileChars s.toFileChars = Except.ok s ∧
    DownloadStubInfo.read_from_file (s.create fs) s.path =
      Except.ok s := by
  have hcore : DownloadStubInfo.ofFileChars s.toFileChars = Except.ok s := by
    unfold DownloadStubInfo.ofFileChars
    rw [splitOnNewline_toFileChars s h1 h2 h3 h4]
    simp only [parseStubFields_toLines s]
    simp
  refine ⟨hcore, ?_⟩
  unfold DownloadStubInfo.read_from_file DownloadStubInfo.create fsWrite
  simp only [if_pos rfl]
  exact hcore

/-- Claim C7, witness: the unit tests' concrete stub record
round-trips exactly, raw and via `create()` on an empty filesystem. -/
theorem C7_witness :
    DownloadStubInfo.ofFileChars (DownloadStubInfo.toFileChars
      ⟨"foo/bar.baz", StubType.file, "abc00101ef/240", "08871bc3d1/18",
        "random-id888"⟩) =
      Except.ok ⟨"foo/bar.baz", StubType.file, "abc00101ef/240",
        "08871bc3d1/18", "random-id888"⟩ ∧
    DownloadStubInfo.read_from_file
      (DownloadStubInfo.create
        ⟨"foo/bar.baz", StubType.file, "abc00101ef/240", "08871bc3d1/18",
          "random-id888"⟩ (fun _ => none)) "foo/bar.baz" =
      Except.ok ⟨"foo/bar.baz", StubType.file, "abc00101ef/240",
        "08871bc3d1/18", "random-id888"⟩ :=
  ⟨(C7_stub_roundtrip _ (fun _ => none) (by decide) (by decide) (by decide)
      (by decide)).1,
   (C7_stub_roundtrip _ (fun _ => none) (by decide) (by decide) (by decide)
      (by decide)).2⟩

/-! ## Claim C8 — download atomicity on failure -/

/-- Claim C8: when the backend blob fetch behind
`DownloadStubInfo.download` returns a non-zero result, the destination
path is never renamed over — whatever stub or file sat at the
destination survives unchanged — and the non-zero fetch result is
propagated to the caller. -/
theorem C8_download_atomic_on_failure (s : DownloadStubInfo)
    (fetchResult : SubprocessResult) (fetched : List Char)
    (fs : FileSystem) (dest : String)
    (h : fetchResult.returncode ≠ 0) :
    (s.download fetchResult fetched fs dest).1 = fetchResult ∧
    (s.download fetchResult fetched fs dest).2 dest = fs dest := by
  have hb : (fetchResult.returncode != 0) = true := by
    simp [bne_iff_ne, h]
  have hne : dest ≠ dest ++ ".download-tmp" :=
    ne_append_of_data_nonempty dest ".download-tmp" (by decide)
  constructor
  · simp [DownloadStubInfo.download, hb]
  · simp [DownloadStubInfo.download, hb, fsWrite, download_temp_location,
      hne]

/-- Claim C8, witness: the unit tests' failing fetch (result 1) against
a destination holding prior bytes — the result is propagated and the
destination is untouched. -/
theorem C8_witness :
    (DownloadStubInfo.download
      ⟨"foo/bar.baz", StubType.file, "abcef8712/24", "0923d1/21",
        "random-id999"⟩
      ⟨1, [], []⟩ "partial-bytes".data
      (fun q => if q = "foo/bar.baz" then some "old-content".data else none)
      "foo/bar.baz").1 = ⟨1, [], []⟩ ∧
    (DownloadStubInfo.download
      ⟨"foo/bar.baz", StubType.file, "abcef8712/24", "0923d1/21",
        "random-id999"⟩
      ⟨1, [], []⟩ "partial-bytes".data
      (fun q => if q = "foo/bar.baz" then some "old-content".data else none)
      "foo/bar.baz").2 "foo/bar.baz" = some "old-content".data :=
  ⟨(C8_download_atomic_on_failure _ _ _ _ _ (by decide)).1,
   (C8_download_atomic_on_failure _ _ _ _ _ (by decide)).2⟩

/-! ## Claim C9 — `is_download_stub_file` totality -/

/-- Claim C9: `is_download_stub_file` returns false for every file
whose leading bytes do not exactly match the fixed stub header —
including empty and shorter-than-header files — and a nonexistent path
is simply not a stub, never an error (the model is a total Boolean
function and maps a missing file to false). -/
theorem C9_is_stub_totality (fs : FileSystem) (p : String) :
    (fs p = none → is_download_stub_file fs p = false) ∧
    (∀ c, fs p = some c → stubHeaderChars.isPrefixOf c = false →
      is_download_stub_file fs p = false) ∧
    (∀ c, fs p = some c → c.length < stubHeaderChars.length →
      is_download_stub_file fs p = false) := by
  refine ⟨fun h => ?_, fun c hc hp => ?_, fun c hc hl => ?_⟩
  · unfold is_download_stub_file
    rw [h]
  · unfold is_download_stub_file
    rw [hc]
    exact hp
  · unfold is_download_stub_file
    rw [hc]
    cases hpre : stubHeaderChars.isPrefixOf c
    · exact hpre
    · exact absurd (isPrefixOf_length_le _ _ hpre) (by omega)

/-- Claim C9, witness: a missing path, a non-stub file, and an empty
file are all reported as non-stubs. -/
theorem C9_witness :
    is_download_stub_file (fun _ => none) "not/there.o" = false ∧
    is_download_stub_file
      (fun _ => some "#!/bin/sh\nnot a stub file\n".data) "testing.stub" =
      false ∧
    is_download_stub_file (fun _ => some []) "empty.o" = false :=
  ⟨(C9_is_stub_totality (fun _ => none) "not/there.o").1 rfl,
   (C9_is_stub_totality (fun _ => some "#!/bin/sh\nnot a stub file\n".data)
      "testing.stub").2.1 _ rfl (by decide),
   (C9_is_stub_totality (fun _ => some []) "empty.o").2.2 [] rfl
     (by decide)⟩
